import Mathlib

/-!
Shallow embedding of the RK61 RGB SDK lighting-protocol encoder
(`src/datatypes.rs`) and verification of its specification.

Modelling conventions:
* `u8` values are `Nat`s (claims carry explicit `< 256` bounds where the
  source type matters).
* Rust `HashMap<K, V>` fields are modelled as lookup functions `K → Option V`;
  the serializer's panicking index `self.mode_presets[&mode]` is modelled by
  an up-front guard (`presetsLoadable`) over exactly the modes the serializer
  touches, so the whole serialization returns `Option`.
* `assert!` failures (panics) are modelled as `Option.none` results.
* The 1664-byte mutable `Vec<u8>` buffer is a function `Nat → Nat`, built by
  the same sequence of writes as the source, in source order; the thread-rng
  bytes of block 3 are an arbitrary draw sequence `filler : Nat → Nat`, each
  draw reduced mod 256 as a `u8`.
-/

set_option maxRecDepth 8000
set_option linter.unusedVariables false

namespace RK61

/-- `struct RGB { red: u8, green: u8, blue: u8 }`. -/
structure RGB where
  red : Nat
  green : Nat
  blue : Nat
deriving DecidableEq

/-- `pub fn rgb(red: u8, green: u8, blue: u8) -> RGB`. -/
def rgb (red green blue : Nat) : RGB := { red, green, blue }

/-- `pub enum Mode` with its 21 variants (`#[repr(u8)]`). -/
inductive Mode where
  | NoBacklight
  | Static
  | SingleOn
  | SingleOff
  | Glittering
  | Falling
  | Colorful
  | Breath
  | Spectrum
  | Outward
  | Scrolling
  | Rolling
  | Rotating
  | Explode
  | Launch
  | Ripples
  | Flowing
  | Pulsating
  | Tilt
  | Shuttle
  | UserDefined
deriving DecidableEq, Fintype

/-- The explicit discriminants of `enum Mode`. -/
def Mode.code : Mode → Nat
  | .NoBacklight => 0
  | .Static => 1
  | .SingleOn => 2
  | .SingleOff => 3
  | .Glittering => 4
  | .Falling => 5
  | .Colorful => 6
  | .Breath => 7
  | .Spectrum => 8
  | .Outward => 9
  | .Scrolling => 0x0a
  | .Rolling => 0x0b
  | .Rotating => 0x0c
  | .Explode => 0x0d
  | .Launch => 0x0e
  | .Ripples => 0x0f
  | .Flowing => 0x10
  | .Pulsating => 0x11
  | .Tilt => 0x12
  | .Shuttle => 0x13
  | .UserDefined => 0x80

/-- `const MODES: [Mode; 21]`, in source order. -/
def MODES : List Mode :=
  [.NoBacklight, .Static, .SingleOn, .SingleOff, .Glittering, .Falling,
   .Colorful, .Breath, .Spectrum, .Outward, .Scrolling, .Rolling, .Rotating,
   .Explode, .Launch, .Ripples, .Flowing, .Pulsating, .Tilt, .Shuttle,
   .UserDefined]

/-- The derived `FromPrimitive::from_usize` for `Mode`: the variant whose
discriminant equals `n`, if any. -/
def Mode.fromCode (n : Nat) : Option Mode :=
  MODES.find? (fun m => Mode.code m == n)

/-- `pub enum Direction` (`#[repr(u8)]`). -/
inductive Direction where
  | Right
  | Left
  | Up
  | Down
deriving DecidableEq, Fintype

/-- The explicit discriminants of `enum Direction`. -/
def Direction.code : Direction → Nat
  | .Right => 0
  | .Left => 1
  | .Up => 2
  | .Down => 3

/-- `pub enum Key`: the 61 named keys. -/
inductive Key where
  | Esc
  | Numrow1
  | Numrow2
  | Numrow3
  | Numrow4
  | Numrow5
  | Numrow6
  | Numrow7
  | Numrow8
  | Numrow9
  | Numrow0
  | Minus
  | Equals
  | Tab
  | Q
  | W
  | E
  | R
  | T
  | Y
  | U
  | I
  | O
  | P
  | LBracket
  | RBracket
  | CapsLock
  | A
  | S
  | D
  | F
  | G
  | H
  | J
  | K
  | L
  | Semicolon
  | Quote
  | Backslash
  | LShift
  | Z
  | X
  | C
  | V
  | B
  | N
  | M
  | Comma
  | Fullstop
  | Slash
  | RShift
  | Enter
  | LCtrl
  | LWin
  | LAlt
  | Space
  | RAlt
  | Menu
  | RCtrl
  | Fn
  | Backspace
deriving DecidableEq, Fintype

/-- The explicit discriminants of `enum Key`. -/
def Key.code : Key → Nat
  | .Esc => 0x4c
  | .Numrow1 => 0x50
  | .Numrow2 => 0x54
  | .Numrow3 => 0x58
  | .Numrow4 => 0x5c
  | .Numrow5 => 0x60
  | .Numrow6 => 0x64
  | .Numrow7 => 0x68
  | .Numrow8 => 0x6c
  | .Numrow9 => 0x70
  | .Numrow0 => 0x74
  | .Minus => 0x78
  | .Equals => 0x7c
  | .Tab => 0x94
  | .Q => 0x98
  | .W => 0x9c
  | .E => 0xa0
  | .R => 0xa4
  | .T => 0xa8
  | .Y => 0xac
  | .U => 0xb0
  | .I => 0xb4
  | .O => 0xb8
  | .P => 0xbc
  | .LBracket => 0xc0
  | .RBracket => 0xc4
  | .CapsLock => 0xdc
  | .A => 0xe0
  | .S => 0xe4
  | .D => 0xe8
  | .F => 0xec
  | .G => 0xf0
  | .H => 0xf4
  | .J => 0xf8
  | .K => 0xfc
  | .L => 0x100
  | .Semicolon => 0x104
  | .Quote => 0x108
  | .Backslash => 0x10c
  | .LShift => 0x124
  | .Z => 0x128
  | .X => 0x12c
  | .C => 0x130
  | .V => 0x134
  | .B => 0x138
  | .N => 0x13c
  | .M => 0x140
  | .Comma => 0x144
  | .Fullstop => 0x148
  | .Slash => 0x14c
  | .RShift => 0x150
  | .Enter => 0x154
  | .LCtrl => 0x16c
  | .LWin => 0x170
  | .LAlt => 0x174
  | .Space => 0x178
  | .RAlt => 0x17c
  | .Menu => 0x180
  | .RCtrl => 0x184
  | .Fn => 0x188
  | .Backspace => 0x19c

/-- All 61 `Key` variants, in declaration order. -/
def KEYS : List Key :=
  [.Esc, .Numrow1, .Numrow2, .Numrow3, .Numrow4, .Numrow5, .Numrow6, .Numrow7,
   .Numrow8, .Numrow9, .Numrow0, .Minus, .Equals, .Tab, .Q, .W, .E, .R, .T,
   .Y, .U, .I, .O, .P, .LBracket, .RBracket, .CapsLock, .A, .S, .D, .F, .G,
   .H, .J, .K, .L, .Semicolon, .Quote, .Backslash, .LShift, .Z, .X, .C, .V,
   .B, .N, .M, .Comma, .Fullstop, .Slash, .RShift, .Enter, .LCtrl, .LWin,
   .LAlt, .Space, .RAlt, .Menu, .RCtrl, .Fn, .Backspace]

/-- The derived `FromPrimitive::from_usize` for `Key`: the variant whose
discriminant equals `n`, if any. -/
def Key.fromCode (n : Nat) : Option Key :=
  KEYS.find? (fun k => Key.code k == n)

/-- `pub struct ModePreset` (Copy/Clone value type). -/
structure ModePreset where
  mode : Mode
  color : RGB
  full_color : Bool
  brightness : Nat
  speed : Nat
  direction : Direction
deriving DecidableEq

/-- `pub fn mode_preset(...) -> ModePreset`; the two `assert!`s (brightness
and speed each in `0x01..=0x10`) panic, modelled as `none`. -/
def mode_preset (mode : Mode) (color : RGB) (full_color : Bool)
    (brightness speed : Nat) (direction : Direction) : Option ModePreset :=
  if brightness ≤ 0x10 ∧ 0x01 ≤ brightness then
    if speed ≤ 0x10 ∧ 0x01 ≤ speed then
      some { mode, color, full_color, brightness, speed, direction }
    else none
  else none

/-- `ModePreset::default_for(mode)`.  The inner `mode_preset` call cannot
panic (its brightness/speed arguments are the in-range constants `0x10` and
`0xc`), which the `Option.get rfl` discharges definitionally. -/
def ModePreset.default_for (mode : Mode) : ModePreset :=
  (mode_preset mode (rgb 0xff 0xff 0xff) true 0x10 0xc
    (match mode with
      | Mode.Scrolling => Direction.Down
      | _ => Direction.Right)).get rfl

/-- `impl Into<[u8; 16]> for ModePreset`. -/
def ModePreset.intoBytes (p : ModePreset) : List Nat :=
  [Mode.code p.mode, p.color.red, p.color.green, p.color.blue,
   0, 0, 0, 0,
   (if p.full_color then 1 else 0), p.brightness, p.speed,
   Direction.code p.direction,
   0, 0, 0xAA, 0x55]

/-- `pub fn mode_presets_default_hashmap() -> HashMap<Mode, ModePreset>`:
insert `default_for(m)` for every mode in `MODES[1..]`. -/
def mode_presets_default_hashmap : Mode → Option ModePreset :=
  (MODES.drop 1).foldl
    (fun h m => fun mm => if mm = m then some (ModePreset.default_for m) else h mm)
    (fun _ => none)

/-- `pub struct LightingUpdateMessage`. -/
structure LightingUpdateMessage where
  mode_presets : Mode → Option ModePreset
  key_colors : Key → Option RGB
  active_mode : ModePreset

/-- `LightingUpdateMessage::set_active_mode`: default-initialize the preset
map, then overwrite the active mode's slot when the map contains its key. -/
def LightingUpdateMessage.set_active_mode (active_mode : ModePreset) :
    LightingUpdateMessage :=
  { mode_presets := fun m =>
      if (mode_presets_default_hashmap active_mode.mode).isSome ∧ m = active_mode.mode
      then some active_mode
      else mode_presets_default_hashmap m,
    key_colors := fun _ => none,
    active_mode := active_mode }

/-- `LightingUpdateMessage::set_backlight_off` (the inner `mode_preset` call
can panic in principle, hence `Option`). -/
def LightingUpdateMessage.set_backlight_off : Option LightingUpdateMessage :=
  (mode_preset Mode.NoBacklight (rgb 0 0 0) false 1 1 Direction.Right).map
    (fun active => { mode_presets := mode_presets_default_hashmap,
                     key_colors := fun _ => none,
                     active_mode := active })

/-- `LightingUpdateMessage::set_user_defined(brightness, hmap)` — the inner
`mode_preset` call panics when `brightness` is out of range. -/
def LightingUpdateMessage.set_user_defined (brightness : Nat)
    (hmap : Key → Option RGB) : Option LightingUpdateMessage :=
  (mode_preset Mode.UserDefined (rgb 0xff 0xff 0xff) false brightness 1
      Direction.Right).map
    (fun active => { mode_presets := mode_presets_default_hashmap,
                     key_colors := hmap,
                     active_mode := active })

/-- Write a single byte of the logical buffer (`data[i] = v`). -/
def writeByte (d : Nat → Nat) (i v : Nat) : Nat → Nat :=
  fun j => if j = i then v else d j

/-- `data[i..i + vs.len()].copy_from_slice(&vs)`. -/
def writeBytes : (Nat → Nat) → Nat → List Nat → (Nat → Nat)
  | d, _, [] => d
  | d, i, v :: vs => writeBytes (writeByte d i v) (i + 1) vs

/-- One iteration of the block-3 filler loop:
`data[0x80 + i] = rng.gen()` where `filler` is the rng's draw sequence. -/
def fillerStep (filler : Nat → Nat) (d : Nat → Nat) (i : Nat) : Nat → Nat :=
  writeByte d (0x80 + i) (filler i % 256)

/-- The block-3 loop `for i in 0x00..0x40 { data[0x80 + i] = rng.gen(); }`. -/
def fillerLoop (filler : Nat → Nat) (d : Nat → Nat) : Nat → Nat :=
  (List.range 0x40).foldl (fillerStep filler) d

/-- The mode looked up in iteration `idx` of the preset loop: the source
iterates `m in 0x01..0x13` with `idx = m - 1` and does
`FromPrimitive::from_usize(m).unwrap()`; the `unwrap` cannot fail for
`m` in `1..=0x12` and is modelled by `getD`. -/
def loopMode (idx : Nat) : Mode :=
  (Mode.fromCode (idx + 1)).getD Mode.NoBacklight

/-- One iteration of the preset loop (blocks 6-10):
`data[0x140 + idx*0x10 .. 0x150 + idx*0x10] = presets[mode].into()`. -/
def presetStep (presets : Mode → ModePreset) (d : Nat → Nat) (idx : Nat) :
    Nat → Nat :=
  writeBytes d (0x140 + idx * 0x10) (ModePreset.intoBytes (presets (loopMode idx)))

/-- The preset loop truncated to its first `n` iterations. -/
def presetLoopN (presets : Mode → ModePreset) (n : Nat) (d : Nat → Nat) :
    Nat → Nat :=
  (List.range n).foldl (presetStep presets) d

/-- The full preset loop `for m in 0x01..0x13` — 18 iterations
(`idx = 0 .. 0x11`); note the exclusive upper bound: `Mode::Shuttle`
(code 0x13) is never reached. -/
def presetLoop (presets : Mode → ModePreset) (d : Nat → Nat) : Nat → Nat :=
  presetLoopN presets 0x12 d

/-- One iteration of the per-key loop (blocks 14-22).  The source iterates
the byte offset `idx` over `(13*0x40..22*0x40).step_by(4)`; here `s` is the
slot number, `idx = 0x340 + 4*s`, and `key_num = idx - 13*0x40`.  The `0x80`
delimiter is always written; the three RGB bytes only when `key_num` is a
`Key` discriminant (color from `key_colors`, default `rgb(0,0,0)`). -/
def keyStep (kc : Key → Option RGB) (d : Nat → Nat) (s : Nat) : Nat → Nat :=
  match Key.fromCode (0x340 + 4 * s - 0x340) with
  | some key =>
      writeByte (writeByte (writeByte (writeByte d (0x340 + 4 * s) 0x80)
        (0x340 + 4 * s + 1) ((kc key).getD (rgb 0 0 0)).red)
        (0x340 + 4 * s + 2) ((kc key).getD (rgb 0 0 0)).green)
        (0x340 + 4 * s + 3) ((kc key).getD (rgb 0 0 0)).blue
  | none => writeByte d (0x340 + 4 * s) 0x80

/-- The per-key loop truncated to its first `n` slots. -/
def keyLoopN (kc : Key → Option RGB) (n : Nat) (d : Nat → Nat) : Nat → Nat :=
  (List.range n).foldl (keyStep kc) d

/-- The full per-key loop: `(22*0x40 - 13*0x40) / 4 = 144` slots. -/
def keyLoop (kc : Key → Option RGB) (d : Nat → Nat) : Nat → Nat :=
  keyLoopN kc 144 d

/-- Blocks 1-2 markers: `data[0]=0x04; data[1]=0x18; data[0x40]=0x04;
data[0x41]=0xab` over the zero-initialized buffer. -/
def stage1 : Nat → Nat :=
  writeByte (writeByte (writeByte (writeByte (fun _ => 0) 0x00 0x04)
    0x01 0x18) 0x40 0x04) 0x41 0xab

/-- ... then block 3: the rng filler loop. -/
def stage2 (filler : Nat → Nat) : Nat → Nat :=
  fillerLoop filler stage1

/-- ... then block 4 (`04 02`) and block 5 (the 9-byte program-start
marker at 0x100). -/
def stage3 (filler : Nat → Nat) : Nat → Nat :=
  writeBytes (writeByte (writeByte (stage2 filler) 0xc0 0x04) 0xc1 0x02)
    0x100 [0x04, 0x13, 0, 0, 0, 0, 0, 0, 0x12]

/-- ... then blocks 6-10: the preset loop followed by the `UserDefined`
record at `0x270..0x280`. -/
def stage4 (presets : Mode → ModePreset) (filler : Nat → Nat) : Nat → Nat :=
  writeBytes (presetLoop presets (stage3 filler)) 0x270
    (ModePreset.intoBytes (presets Mode.UserDefined))

/-- ... then blocks 14-22: the per-key loop. -/
def stage5 (presets : Mode → ModePreset) (kc : Key → Option RGB)
    (filler : Nat → Nat) : Nat → Nat :=
  keyLoop kc (stage4 presets filler)

/-- ... then block 23: the active-mode record at `0x580..0x590`. -/
def stage6 (presets : Mode → ModePreset) (active : ModePreset)
    (kc : Key → Option RGB) (filler : Nat → Nat) : Nat → Nat :=
  writeBytes (stage5 presets kc filler) 0x580 (ModePreset.intoBytes active)

/-- The complete 1664-byte logical buffer of
`construct_feature_report_data_blocks`, as a byte function: stages 1-6
followed by the block 24 (`04 02`), block 25 (`04 F0`) and block 26
(`04 18`) markers, all in source write order. -/
def constructData (presets : Mode → ModePreset) (active : ModePreset)
    (kc : Key → Option RGB) (filler : Nat → Nat) : Nat → Nat :=
  writeByte (writeByte (writeByte (writeByte (writeByte (writeByte
    (stage6 presets active kc filler) 0x5c0 0x04) 0x5c1 0x02)
    0x600 0x04) 0x601 0xF0) 0x640 0x04) 0x641 0x18

/-- The modes the serializer indexes `self.mode_presets` with: the 18 loop
modes (codes 1..=0x12) and `UserDefined`.  A missing entry for any of these
panics the Rust serializer. -/
def loadedModes : List Mode :=
  ((List.range 0x12).map loopMode) ++ [Mode.UserDefined]

/-- Placeholder preset returned by `getD` where the Rust `HashMap` index
would have panicked; unreachable whenever `presetsLoadable` holds. -/
def absentPreset : ModePreset :=
  { mode := Mode.NoBacklight, color := rgb 0 0 0, full_color := false,
    brightness := 1, speed := 1, direction := Direction.Right }

/-- Totalize a preset map for the serializer core. -/
def totalPresets (mp : Mode → Option ModePreset) : Mode → ModePreset :=
  fun m => (mp m).getD absentPreset

/-- Whether every `HashMap` index performed by the serializer succeeds. -/
def presetsLoadable (lum : LightingUpdateMessage) : Bool :=
  loadedModes.all (fun m => (lum.mode_presets m).isSome)

/-- The serialized logical 1664-byte buffer of an aggregate (`none` when the
Rust code would panic on a missing `mode_presets` entry). -/
def lumData (lum : LightingUpdateMessage) (filler : Nat → Nat) :
    Option (Nat → Nat) :=
  if presetsLoadable lum then
    some (constructData (totalPresets lum.mode_presets) lum.active_mode
      lum.key_colors filler)
  else none

/-- The final chunking: 26 blocks of 65 bytes, block `b` byte 0 being the
zero HIDAPI report id and bytes `1..65` being `data[64*b .. 64*b + 64]`. -/
def chunkBlocks (d : Nat → Nat) : Nat → Nat → Nat :=
  fun block j => if j = 0 then 0 else d (64 * block + (j - 1))

/-- `LightingUpdateMessage::construct_feature_report_data_blocks`, as the
block/byte function. -/
def construct_feature_report_data_blocks (lum : LightingUpdateMessage)
    (filler : Nat → Nat) : Option (Nat → Nat → Nat) :=
  (lumData lum filler).map chunkBlocks

/-- RGB channel of a key slot by in-slot offset (1 = red, 2 = green,
3 = blue), matching the write order of the per-key loop. -/
def rgbByte (c : RGB) (ch : Nat) : Nat :=
  if ch = 1 then c.red else if ch = 2 then c.green else c.blue

/-- The sparse key map of the spec's `set_user_defined(16, {Q: (255,128,15)})`
scenario. -/
def kcQ : Key → Option RGB :=
  fun k => if k = Key.Q then some (rgb 255 128 15) else none

/-- The aggregate `set_user_defined(16, {Q: (255,128,15)})` (the constructor
succeeds: brightness 16 is in range). -/
def c6lum : LightingUpdateMessage :=
  (LightingUpdateMessage.set_user_defined 16 kcQ).get rfl

/-- The aggregate `set_backlight_off()` (the constructor always succeeds). -/
def lumOff : LightingUpdateMessage :=
  LightingUpdateMessage.set_backlight_off.get rfl

/-- The aggregate `set_user_defined(16, {})`. -/
def lumU16 : LightingUpdateMessage :=
  (LightingUpdateMessage.set_user_defined 16 (fun _ => none)).get rfl

/-- The all-zero rng draw sequence, used to instantiate filler arguments. -/
def zeroFiller : Nat → Nat := fun _ => 0

/-! ## Infrastructure lemmas about the byte-buffer writes -/

theorem writeByte_eq (d : Nat → Nat) (i v j : Nat) :
    writeByte d i v j = if j = i then v else d j := rfl

theorem writeBytes_eq (vs : List Nat) (d : Nat → Nat) (i j : Nat) :
    writeBytes d i vs j =
      if i ≤ j ∧ j < i + vs.length then vs.getD (j - i) 0 else d j := by
  induction vs generalizing d i with
  | nil =>
      rw [writeBytes, if_neg (by simp only [List.length_nil]; omega)]
  | cons v vs ih =>
      rw [writeBytes, ih, writeByte_eq]
      by_cases h2 : j = i
      · subst h2
        rw [if_neg (by omega), if_pos rfl,
          if_pos (by simp only [List.length_cons]; omega),
          Nat.sub_self, List.getD_cons_zero]
      · by_cases h1 : i + 1 ≤ j ∧ j < i + 1 + vs.length
        · rw [if_pos h1, if_pos (by simp only [List.length_cons]; omega)]
          have h3 : j - i = (j - (i + 1)) + 1 := by omega
          rw [h3, List.getD_cons_succ]
        · rw [if_neg h1, if_neg h2,
            if_neg (by simp only [List.length_cons]; omega)]

theorem writeByte_congr (d d2 : Nat → Nat) (i v j : Nat) (h : d j = d2 j) :
    writeByte d i v j = writeByte d2 i v j := by
  rw [writeByte_eq, writeByte_eq]
  split_ifs with h1
  · rfl
  · exact h

theorem writeBytes_congr (vs : List Nat) (d d2 : Nat → Nat) (i j : Nat)
    (h : d j = d2 j) : writeBytes d i vs j = writeBytes d2 i vs j := by
  rw [writeBytes_eq, writeBytes_eq]
  split_ifs with h1
  · rfl
  · exact h

/-- A left fold of write-steps leaves a position unchanged when every step
does. -/
theorem foldl_write_skip {α : Type} (step : (Nat → Nat) → α → (Nat → Nat))
    (l : List α) (j : Nat)
    (hstep : ∀ (d : Nat → Nat), ∀ a ∈ l, step d a j = d j)
    (d : Nat → Nat) : l.foldl step d j = d j := by
  induction l generalizing d with
  | nil => rfl
  | cons a l ih =>
      rw [List.foldl_cons,
        ih (fun d2 a2 ha => hstep d2 a2 (List.mem_cons_of_mem _ ha)) _,
        hstep d a (List.mem_cons_self _ _)]

/-- A left fold of write-steps is pointwise-congruent when every step is. -/
theorem foldl_write_congr {α : Type} (step : (Nat → Nat) → α → (Nat → Nat))
    (j : Nat)
    (hstep : ∀ (d d2 : Nat → Nat) (a : α), d j = d2 j → step d a j = step d2 a j)
    (l : List α) (d d2 : Nat → Nat) (h : d j = d2 j) :
    l.foldl step d j = l.foldl step d2 j := by
  induction l generalizing d d2 with
  | nil => exact h
  | cons a l ih => exact ih _ _ (hstep d d2 a h)

theorem intoBytes_length (p : ModePreset) :
    (ModePreset.intoBytes p).length = 16 := rfl

/-! ## Discriminant lookup lemmas -/

theorem Key.fromCode_keycode (k : Key) : Key.fromCode (Key.code k) = some k := by
  cases k <;> rfl

theorem Key.code_of_fromCode {n : Nat} {k : Key}
    (h : Key.fromCode n = some k) : Key.code k = n := by
  unfold Key.fromCode at h
  have h2 := List.find?_some h
  simpa using h2

theorem Mode.fromCode_modecode (m : Mode) :
    Mode.fromCode (Mode.code m) = some m := by
  cases m <;> rfl

/-! ## Loop read-off lemmas -/

theorem fillerLoop_out (filler d : Nat → Nat) (j : Nat)
    (h : j < 0x80 ∨ 0xC0 ≤ j) : fillerLoop filler d j = d j := by
  refine foldl_write_skip _ _ _ (fun d2 i hi => ?_) d
  have hi2 : i < 0x40 := List.mem_range.mp hi
  unfold fillerStep
  rw [writeByte_eq, if_neg (by omega)]

theorem presetStep_out (p : Mode → ModePreset) (d : Nat → Nat) (idx j : Nat)
    (h : j < 0x140 + idx * 0x10 ∨ 0x140 + idx * 0x10 + 0x10 ≤ j) :
    presetStep p d idx j = d j := by
  unfold presetStep
  rw [writeBytes_eq, if_neg (by simp only [intoBytes_length]; omega)]

theorem presetLoopN_out (p : Mode → ModePreset) (n : Nat) (d : Nat → Nat)
    (j : Nat) (h : j < 0x140 ∨ 0x140 + n * 0x10 ≤ j) :
    presetLoopN p n d j = d j := by
  refine foldl_write_skip _ _ _ (fun d2 idx hidx => ?_) d
  have h2 : idx < n := List.mem_range.mp hidx
  exact presetStep_out p d2 idx j (by omega)

theorem presetLoopN_in (p : Mode → ModePreset) (n idx k : Nat) (h1 : idx < n)
    (hk : k < 16) (d : Nat → Nat) :
    presetLoopN p n d (0x140 + idx * 0x10 + k) =
      (ModePreset.intoBytes (p (loopMode idx))).getD k 0 := by
  induction n with
  | zero => omega
  | succ n ih =>
      unfold presetLoopN
      rw [List.range_succ, List.foldl_append, List.foldl_cons, List.foldl_nil]
      by_cases h2 : idx < n
      · rw [presetStep_out _ _ _ _ (by omega)]
        exact ih h2
      · have h3 : idx = n := by omega
        subst h3
        unfold presetStep
        rw [writeBytes_eq, if_pos (by simp only [intoBytes_length]; omega)]
        have h4 : 0x140 + idx * 0x10 + k - (0x140 + idx * 0x10) = k := by omega
        rw [h4]

theorem keyStep_out (kc : Key → Option RGB) (d : Nat → Nat) (s j : Nat)
    (h : j < 0x340 + 4 * s ∨ 0x340 + 4 * s + 4 ≤ j) :
    keyStep kc d s j = d j := by
  unfold keyStep
  cases Key.fromCode (0x340 + 4 * s - 0x340) with
  | some k =>
      dsimp only
      rw [writeByte_eq, if_neg (by omega), writeByte_eq, if_neg (by omega),
        writeByte_eq, if_neg (by omega), writeByte_eq, if_neg (by omega)]
  | none =>
      dsimp only
      rw [writeByte_eq, if_neg (by omega)]

theorem keyLoopN_out (kc : Key → Option RGB) (n : Nat) (d : Nat → Nat)
    (j : Nat) (h : j < 0x340 ∨ 0x340 + 4 * n ≤ j) : keyLoopN kc n d j = d j := by
  refine foldl_write_skip _ _ _ (fun d2 s hs => ?_) d
  have h2 : s < n := List.mem_range.mp hs
  exact keyStep_out kc d2 s j (by omega)

theorem keyLoopN_in (kc : Key → Option RGB) (n s ch : Nat) (hs : s < n)
    (hch : ch ≤ 3) (d : Nat → Nat) :
    keyLoopN kc n d (0x340 + 4 * s + ch) =
      if ch = 0 then 0x80
      else
        match Key.fromCode (4 * s) with
        | some k => rgbByte ((kc k).getD (rgb 0 0 0)) ch
        | none => d (0x340 + 4 * s + ch) := by
  induction n with
  | zero => omega
  | succ n ih =>
      unfold keyLoopN
      rw [List.range_succ, List.foldl_append, List.foldl_cons, List.foldl_nil]
      by_cases h2 : s < n
      · rw [keyStep_out _ _ _ _ (by omega)]
        exact ih h2
      · have h3 : s = n := by omega
        subst h3
        unfold keyStep
        rw [show 0x340 + 4 * s - 0x340 = 4 * s from by omega]
        cases hfc : Key.fromCode (4 * s) with
        | some k =>
            dsimp only
            by_cases hch0 : ch = 0
            · subst hch0
              rw [writeByte_eq, if_neg (by omega), writeByte_eq,
                if_neg (by omega), writeByte_eq, if_neg (by omega),
                writeByte_eq, if_pos (by omega), if_pos rfl]
            · interval_cases ch
              · exact absurd rfl hch0
              · rw [writeByte_eq, if_neg (by omega), writeByte_eq,
                  if_neg (by omega), writeByte_eq, if_pos rfl, if_neg hch0]
                rfl
              · rw [writeByte_eq, if_neg (by omega), writeByte_eq,
                  if_pos rfl, if_neg hch0]
                rfl
              · rw [writeByte_eq, if_pos rfl, if_neg hch0]
                rfl
        | none =>
            dsimp only
            by_cases hch0 : ch = 0
            · subst hch0
              rw [writeByte_eq, if_pos (by omega), if_pos rfl]
            · rw [writeByte_eq, if_neg (by omega), if_neg hch0]
              exact keyLoopN_out kc s d _ (by omega)

/-! ## Stage read-off lemmas for the serialized buffer -/

theorem stage1_zero (j : Nat) (h : 0x42 ≤ j) : stage1 j = 0 := by
  unfold stage1
  rw [writeByte_eq, if_neg (by omega), writeByte_eq, if_neg (by omega),
    writeByte_eq, if_neg (by omega), writeByte_eq, if_neg (by omega)]

theorem stage3_zero (filler : Nat → Nat) (j : Nat) (h : 0x140 ≤ j) :
    stage3 filler j = 0 := by
  unfold stage3
  rw [writeBytes_eq,
    if_neg (by simp only [List.length_cons, List.length_nil]; omega),
    writeByte_eq, if_neg (by omega), writeByte_eq, if_neg (by omega)]
  unfold stage2
  rw [fillerLoop_out _ _ _ (by omega)]
  exact stage1_zero j (by omega)

theorem stage4_preset (p : Mode → ModePreset) (filler : Nat → Nat)
    (idx k : Nat) (hidx : idx < 0x12) (hk : k < 16) :
    stage4 p filler (0x140 + idx * 0x10 + k) =
      (ModePreset.intoBytes (p (loopMode idx))).getD k 0 := by
  unfold stage4
  rw [writeBytes_eq, if_neg (by simp only [intoBytes_length]; omega)]
  unfold presetLoop
  exact presetLoopN_in p 0x12 idx k hidx hk _

theorem stage4_ud (p : Mode → ModePreset) (filler : Nat → Nat) (k : Nat)
    (hk : k < 16) :
    stage4 p filler (0x270 + k) =
      (ModePreset.intoBytes (p Mode.UserDefined)).getD k 0 := by
  unfold stage4
  rw [writeBytes_eq, if_pos (by simp only [intoBytes_length]; omega)]
  have h2 : 0x270 + k - 0x270 = k := by omega
  rw [h2]

theorem stage4_zero (p : Mode → ModePreset) (filler : Nat → Nat) (j : Nat)
    (h : 0x260 ≤ j ∧ j < 0x270 ∨ 0x280 ≤ j) : stage4 p filler j = 0 := by
  unfold stage4
  rw [writeBytes_eq, if_neg (by simp only [intoBytes_length]; omega)]
  unfold presetLoop
  rw [presetLoopN_out _ _ _ _ (by omega)]
  exact stage3_zero filler j (by omega)

theorem stage5_key (p : Mode → ModePreset) (kc : Key → Option RGB)
    (filler : Nat → Nat) (s ch : Nat) (hs : s < 144) (hch : ch ≤ 3) :
    stage5 p kc filler (0x340 + 4 * s + ch) =
      if ch = 0 then 0x80
      else
        match Key.fromCode (4 * s) with
        | some k => rgbByte ((kc k).getD (rgb 0 0 0)) ch
        | none => 0 := by
  unfold stage5 keyLoop
  rw [keyLoopN_in kc 144 s ch hs hch]
  by_cases hch0 : ch = 0
  · rw [if_pos hch0, if_pos hch0]
  · rw [if_neg hch0, if_neg hch0]
    cases hfc : Key.fromCode (4 * s) with
    | some k => rfl
    | none => exact stage4_zero p filler _ (by omega)

theorem stage5_below (p : Mode → ModePreset) (kc : Key → Option RGB)
    (filler : Nat → Nat) (j : Nat) (h : j < 0x340) :
    stage5 p kc filler j = stage4 p filler j := by
  unfold stage5 keyLoop
  exact keyLoopN_out kc 144 _ j (Or.inl h)

theorem stage5_above (p : Mode → ModePreset) (kc : Key → Option RGB)
    (filler : Nat → Nat) (j : Nat) (h : 0x580 ≤ j) :
    stage5 p kc filler j = 0 := by
  unfold stage5 keyLoop
  rw [keyLoopN_out kc 144 _ j (by omega)]
  exact stage4_zero p filler j (by omega)

theorem stage6_active (p : Mode → ModePreset) (a : ModePreset)
    (kc : Key → Option RGB) (filler : Nat → Nat) (k : Nat) (hk : k < 16) :
    stage6 p a kc filler (0x580 + k) = (ModePreset.intoBytes a).getD k 0 := by
  unfold stage6
  rw [writeBytes_eq, if_pos (by simp only [intoBytes_length]; omega)]
  have h2 : 0x580 + k - 0x580 = k := by omega
  rw [h2]

theorem stage6_else (p : Mode → ModePreset) (a : ModePreset)
    (kc : Key → Option RGB) (filler : Nat → Nat) (j : Nat)
    (h : j < 0x580 ∨ 0x590 ≤ j) :
    stage6 p a kc filler j = stage5 p kc filler j := by
  unfold stage6
  rw [writeBytes_eq, if_neg (by simp only [intoBytes_length]; omega)]

theorem constructData_below (p : Mode → ModePreset) (a : ModePreset)
    (kc : Key → Option RGB) (filler : Nat → Nat) (j : Nat) (h : j < 0x5c0) :
    constructData p a kc filler j = stage6 p a kc filler j := by
  unfold constructData
  rw [writeByte_eq, if_neg (by omega), writeByte_eq, if_neg (by omega),
    writeByte_eq, if_neg (by omega), writeByte_eq, if_neg (by omega),
    writeByte_eq, if_neg (by omega), writeByte_eq, if_neg (by omega)]

theorem constructData_key (p : Mode → ModePreset) (a : ModePreset)
    (kc : Key → Option RGB) (filler : Nat → Nat) (s ch : Nat) (hs : s < 144)
    (hch : ch ≤ 3) :
    constructData p a kc filler (0x340 + 4 * s + ch) =
      if ch = 0 then 0x80
      else
        match Key.fromCode (4 * s) with
        | some k => rgbByte ((kc k).getD (rgb 0 0 0)) ch
        | none => 0 := by
  rw [constructData_below _ _ _ _ _ (by omega),
    stage6_else _ _ _ _ _ (by omega)]
  exact stage5_key p kc filler s ch hs hch

theorem constructData_preset (p : Mode → ModePreset) (a : ModePreset)
    (kc : Key → Option RGB) (filler : Nat → Nat) (idx k : Nat)
    (hidx : idx < 0x12) (hk : k < 16) :
    constructData p a kc filler (0x140 + idx * 0x10 + k) =
      (ModePreset.intoBytes (p (loopMode idx))).getD k 0 := by
  rw [constructData_below _ _ _ _ _ (by omega),
    stage6_else _ _ _ _ _ (by omega), stage5_below _ _ _ _ (by omega)]
  exact stage4_preset p filler idx k hidx hk

theorem constructData_ud (p : Mode → ModePreset) (a : ModePreset)
    (kc : Key → Option RGB) (filler : Nat → Nat) (k : Nat) (hk : k < 16) :
    constructData p a kc filler (0x270 + k) =
      (ModePreset.intoBytes (p Mode.UserDefined)).getD k 0 := by
  rw [constructData_below _ _ _ _ _ (by omega),
    stage6_else _ _ _ _ _ (by omega), stage5_below _ _ _ _ (by omega)]
  exact stage4_ud p filler k hk

theorem constructData_active (p : Mode → ModePreset) (a : ModePreset)
    (kc : Key → Option RGB) (filler : Nat → Nat) (k : Nat) (hk : k < 16) :
    constructData p a kc filler (0x580 + k) =
      (ModePreset.intoBytes a).getD k 0 := by
  rw [constructData_below _ _ _ _ _ (by omega)]
  exact stage6_active p a kc filler k hk

theorem constructData_presetGap (p : Mode → ModePreset) (a : ModePreset)
    (kc : Key → Option RGB) (filler : Nat → Nat) (j : Nat) (h1 : 0x260 ≤ j)
    (h2 : j < 0x270) : constructData p a kc filler j = 0 := by
  rw [constructData_below _ _ _ _ _ (by omega),
    stage6_else _ _ _ _ _ (by omega), stage5_below _ _ _ _ (by omega)]
  exact stage4_zero p filler j (by omega)

theorem constructData_postActive (p : Mode → ModePreset) (a : ModePreset)
    (kc : Key → Option RGB) (filler : Nat → Nat) (j : Nat) (h1 : 0x590 ≤ j)
    (h2 : j < 0x5c0) : constructData p a kc filler j = 0 := by
  rw [constructData_below _ _ _ _ _ (by omega),
    stage6_else _ _ _ _ _ (by omega)]
  exact stage5_above p kc filler j (by omega)

/-! ## Filler independence -/

theorem presetStep_congr (p : Mode → ModePreset) (d d2 : Nat → Nat)
    (idx j : Nat) (h : d j = d2 j) :
    presetStep p d idx j = presetStep p d2 idx j := by
  unfold presetStep
  exact writeBytes_congr _ _ _ _ _ h

theorem keyStep_congr (kc : Key → Option RGB) (d d2 : Nat → Nat) (s j : Nat)
    (h : d j = d2 j) : keyStep kc d s j = keyStep kc d2 s j := by
  unfold keyStep
  cases Key.fromCode (0x340 + 4 * s - 0x340) with
  | some k =>
      dsimp only
      exact writeByte_congr _ _ _ _ _ (writeByte_congr _ _ _ _ _
        (writeByte_congr _ _ _ _ _ (writeByte_congr _ _ _ _ _ h)))
  | none =>
      dsimp only
      exact writeByte_congr _ _ _ _ _ h

theorem constructData_filler_indep (p : Mode → ModePreset) (a : ModePreset)
    (kc : Key → Option RGB) (f1 f2 : Nat → Nat) (j : Nat)
    (h : j < 0x80 ∨ 0xC0 ≤ j) :
    constructData p a kc f1 j = constructData p a kc f2 j := by
  have h2 : stage2 f1 j = stage2 f2 j := by
    unfold stage2
    rw [fillerLoop_out _ _ _ h, fillerLoop_out _ _ _ h]
  have h3 : stage3 f1 j = stage3 f2 j := by
    unfold stage3
    exact writeBytes_congr _ _ _ _ _ (writeByte_congr _ _ _ _ _
      (writeByte_congr _ _ _ _ _ h2))
  have h4 : stage4 p f1 j = stage4 p f2 j := by
    unfold stage4 presetLoop presetLoopN
    refine writeBytes_congr _ _ _ _ _ ?_
    exact foldl_write_congr _ j
      (fun d d2 idx hh => presetStep_congr p d d2 idx j hh) _ _ _ h3
  have h5 : stage5 p kc f1 j = stage5 p kc f2 j := by
    unfold stage5 keyLoop keyLoopN
    exact foldl_write_congr _ j
      (fun d d2 s hh => keyStep_congr kc d d2 s j hh) _ _ _ h4
  have h6 : stage6 p a kc f1 j = stage6 p a kc f2 j := by
    unfold stage6
    exact writeBytes_congr _ _ _ _ _ h5
  unfold constructData
  exact writeByte_congr _ _ _ _ _ (writeByte_congr _ _ _ _ _
    (writeByte_congr _ _ _ _ _ (writeByte_congr _ _ _ _ _
      (writeByte_congr _ _ _ _ _ (writeByte_congr _ _ _ _ _ h6)))))

/-! ## Aggregate constructor characterizations -/

theorem default_hashmap_eq (m : Mode) :
    mode_presets_default_hashmap m =
      if m = Mode.NoBacklight then none
      else some (ModePreset.default_for m) := by
  cases m <;> rfl

theorem default_for_eq (m : Mode) :
    ModePreset.default_for m =
      { mode := m, color := rgb 0xff 0xff 0xff, full_color := true,
        brightness := 0x10, speed := 0xc,
        direction := if m = Mode.Scrolling then Direction.Down
                     else Direction.Right } := by
  cases m <;> rfl

theorem set_active_mode_presets (p : ModePreset) (m : Mode) :
    (LightingUpdateMessage.set_active_mode p).mode_presets m =
      if m = p.mode ∧ p.mode ≠ Mode.NoBacklight then some p
      else mode_presets_default_hashmap m := by
  unfold LightingUpdateMessage.set_active_mode
  dsimp only
  rw [default_hashmap_eq p.mode]
  by_cases h1 : p.mode = Mode.NoBacklight
  · simp [h1]
  · simp [h1]

theorem set_active_mode_active (p : ModePreset) :
    (LightingUpdateMessage.set_active_mode p).active_mode = p := rfl

theorem set_backlight_off_eq :
    LightingUpdateMessage.set_backlight_off = some lumOff := rfl

theorem lumOff_presets :
    lumOff.mode_presets = mode_presets_default_hashmap := rfl

theorem lumOff_active :
    lumOff.active_mode =
      { mode := Mode.NoBacklight, color := rgb 0 0 0, full_color := false,
        brightness := 1, speed := 1, direction := Direction.Right } := rfl

theorem set_user_defined_some (b : Nat) (hmap : Key → Option RGB)
    (l : LightingUpdateMessage)
    (h : LightingUpdateMessage.set_user_defined b hmap = some l) :
    l.mode_presets = mode_presets_default_hashmap ∧ l.key_colors = hmap ∧
      l.active_mode =
        { mode := Mode.UserDefined, color := rgb 0xff 0xff 0xff,
          full_color := false, brightness := b, speed := 1,
          direction := Direction.Right } := by
  unfold LightingUpdateMessage.set_user_defined mode_preset at h
  by_cases h1 : b ≤ 0x10 ∧ 0x01 ≤ b
  · rw [if_pos h1, if_pos (by omega)] at h
    simp only [Option.map_some', Option.some.injEq] at h
    subst h
    exact ⟨rfl, rfl, rfl⟩
  · rw [if_neg h1] at h
    simp only [Option.map_none'] at h
    exact Option.noConfusion h

theorem set_user_defined_16_kcQ :
    LightingUpdateMessage.set_user_defined 16 kcQ = some c6lum := rfl

theorem set_user_defined_16_empty :
    LightingUpdateMessage.set_user_defined 16 (fun _ => none) = some lumU16 := rfl

theorem c6lum_loadable : presetsLoadable c6lum = true := by decide

theorem lumOff_loadable : presetsLoadable lumOff = true := by decide

theorem lumU16_loadable : presetsLoadable lumU16 = true := by decide

/-! ## Claim theorems -/

/-- Claim C7: for every real mode (all 20 modes other than `NoBacklight`),
`default_for(mode)` returns a preset with color white `(0xff,0xff,0xff)`,
`full_color = true`, brightness `0x10`, speed `0xc`, and direction `Down`
if the mode is `Scrolling`, otherwise `Right`. -/
theorem C7_default_for (m : Mode) (h : m ≠ Mode.NoBacklight) :
    ModePreset.default_for m =
      { mode := m, color := rgb 0xff 0xff 0xff, full_color := true,
        brightness := 0x10, speed := 0xc,
        direction := if m = Mode.Scrolling then Direction.Down
                     else Direction.Right } := by
  cases m <;> rfl

theorem C7_default_for_witness :
    Mode.Scrolling ≠ Mode.NoBacklight ∧
      ModePreset.default_for Mode.Scrolling =
        { mode := Mode.Scrolling, color := rgb 0xff 0xff 0xff,
          full_color := true, brightness := 0x10, speed := 0xc,
          direction := if Mode.Scrolling = Mode.Scrolling then Direction.Down
                       else Direction.Right } :=
  ⟨by decide, C7_default_for Mode.Scrolling (by decide)⟩

/-- Claim C8: constructing a `ModePreset` via the general constructor
`mode_preset` fails (a fatal panic, modelled as `none`) iff brightness or
speed is outside the inclusive range [1,16]; when both are in range it
returns a preset carrying exactly the given fields. -/
theorem C8_mode_preset (mode : Mode) (color : RGB) (fc : Bool) (b s : Nat)
    (dir : Direction) (hb : b < 256) (hs : s < 256) :
    (mode_preset mode color fc b s dir = none ↔
      (b < 1 ∨ 16 < b) ∨ (s < 1 ∨ 16 < s)) ∧
    (1 ≤ b → b ≤ 16 → 1 ≤ s → s ≤ 16 →
      mode_preset mode color fc b s dir =
        some { mode := mode, color := color, full_color := fc,
               brightness := b, speed := s, direction := dir }) := by
  constructor
  · unfold mode_preset
    split_ifs with h1 h2
    · constructor
      · intro h
        exact h.elim
      · intro h
        exfalso
        omega
    · constructor
      · intro _
        omega
      · intro _
        rfl
    · constructor
      · intro _
        omega
      · intro _
        rfl
  · intro hb1 hb2 hs1 hs2
    unfold mode_preset
    rw [if_pos (by omega), if_pos (by omega)]

theorem C8_mode_preset_witness :
    (mode_preset Mode.Static (rgb 1 2 3) true 0 5 Direction.Left = none ↔
      ((0 : Nat) < 1 ∨ 16 < (0 : Nat)) ∨ ((5 : Nat) < 1 ∨ 16 < (5 : Nat))) ∧
    mode_preset Mode.Static (rgb 1 2 3) true 4 5 Direction.Left =
      some { mode := Mode.Static, color := rgb 1 2 3, full_color := true,
             brightness := 4, speed := 5, direction := Direction.Left } :=
  ⟨(C8_mode_preset Mode.Static (rgb 1 2 3) true 0 5 Direction.Left
      (by omega) (by omega)).1,
   (C8_mode_preset Mode.Static (rgb 1 2 3) true 4 5 Direction.Left
      (by omega) (by omega)).2 (by omega) (by omega) (by omega) (by omega)⟩

/-- Claim C10: `set_user_defined(brightness, key_map)` aborts with the fatal
brightness-range construction error (modelled as `none`) iff brightness is
outside [1,16]; for any brightness in [1,16] and any key map it never
fails. -/
theorem C10_set_user_defined (b : Nat) (hb : b < 256)
    (hmap : Key → Option RGB) :
    (LightingUpdateMessage.set_user_defined b hmap = none ↔
      (b < 1 ∨ 16 < b)) ∧
    (1 ≤ b → b ≤ 16 →
      (LightingUpdateMessage.set_user_defined b hmap).isSome = true) := by
  constructor
  · unfold LightingUpdateMessage.set_user_defined mode_preset
    split_ifs with h1 h2
    · simp only [Option.map_some']
      constructor
      · intro h
        exact Option.noConfusion h
      · intro h
        exfalso
        omega
    · exact absurd (by omega : (1 : Nat) ≤ 0x10 ∧ 0x01 ≤ (1 : Nat)) h2
    · simp only [Option.map_none']
      constructor
      · intro _
        omega
      · intro _
        trivial
  · intro h1 h2
    unfold LightingUpdateMessage.set_user_defined mode_preset
    rw [if_pos (by omega), if_pos (by omega)]
    rfl

theorem C10_set_user_defined_witness :
    (LightingUpdateMessage.set_user_defined 17 (fun _ => none) = none ↔
      ((17 : Nat) < 1 ∨ 16 < (17 : Nat))) ∧
    (LightingUpdateMessage.set_user_defined 16 (fun _ => none)).isSome = true :=
  ⟨(C10_set_user_defined 17 (by omega) (fun _ => none)).1,
   (C10_set_user_defined 16 (by omega) (fun _ => none)).2 (by omega) (by omega)⟩

/-- Claim C5: for every `ModePreset` with brightness and speed in [1,16],
its 16-byte encoding is exactly [mode code, red, green, blue, 0, 0, 0, 0,
full_color as 0/1, brightness, speed, direction code, 0, 0, 0xAA, 0x55];
this encoding is used identically for the per-mode preset records and for
the active-mode record of the serialized buffer. -/
theorem C5_encoding (p : ModePreset)
    (hb : 1 ≤ p.brightness ∧ p.brightness ≤ 16)
    (hs : 1 ≤ p.speed ∧ p.speed ≤ 16) :
    ModePreset.intoBytes p =
      [Mode.code p.mode, p.color.red, p.color.green, p.color.blue, 0, 0, 0, 0,
       (if p.full_color then 1 else 0), p.brightness, p.speed,
       Direction.code p.direction, 0, 0, 0xAA, 0x55] ∧
    (∀ (a : ModePreset) (kc : Key → Option RGB) (f : Nat → Nat) (k : Nat),
      k < 16 → constructData (fun _ => p) a kc f (0x140 + k) =
        (ModePreset.intoBytes p).getD k 0) ∧
    (∀ (pp : Mode → ModePreset) (kc : Key → Option RGB) (f : Nat → Nat)
      (k : Nat), k < 16 → constructData pp p kc f (0x580 + k) =
        (ModePreset.intoBytes p).getD k 0) := by
  refine ⟨rfl, ?_, ?_⟩
  · intro a kc f k hk
    have h := constructData_preset (fun _ => p) a kc f 0 k (by omega) hk
    simpa using h
  · intro pp kc f k hk
    exact constructData_active pp p kc f k hk

theorem C5_encoding_witness :
    ModePreset.intoBytes (ModePreset.default_for Mode.Static) =
      [Mode.code (ModePreset.default_for Mode.Static).mode,
       (ModePreset.default_for Mode.Static).color.red,
       (ModePreset.default_for Mode.Static).color.green,
       (ModePreset.default_for Mode.Static).color.blue, 0, 0, 0, 0,
       (if (ModePreset.default_for Mode.Static).full_color then 1 else 0),
       (ModePreset.default_for Mode.Static).brightness,
       (ModePreset.default_for Mode.Static).speed,
       Direction.code (ModePreset.default_for Mode.Static).direction,
       0, 0, 0xAA, 0x55] ∧
    constructData (fun _ => ModePreset.default_for Mode.Static)
        (ModePreset.default_for Mode.Static) (fun _ => none) zeroFiller
        (0x580 + 0) =
      (ModePreset.intoBytes (ModePreset.default_for Mode.Static)).getD 0 0 :=
  ⟨(C5_encoding (ModePreset.default_for Mode.Static) (by decide)
      (by decide)).1,
   (C5_encoding (ModePreset.default_for Mode.Static) (by decide)
      (by decide)).2.2 (fun _ => ModePreset.default_for Mode.Static)
      (fun _ => none) zeroFiller 0 (by omega)⟩

/-- Claim C4: for every aggregate, logical offsets 0x140-0x26F of the
serialized buffer hold the 18 consecutive 16-byte Mode Preset records for
the modes with numeric codes 1..0x12 inclusive, in ascending code order,
with the record for code m at offset 0x140 + (m-1)*0x10, and offsets
0x270-0x27F hold the 16-byte record for the aggregate's UserDefined
preset. -/
theorem C4_preset_layout (p : Mode → ModePreset) (a : ModePreset)
    (kc : Key → Option RGB) (f : Nat → Nat) (m : Nat) (h1 : 1 ≤ m)
    (h2 : m ≤ 0x12) (mo : Mode) (hmo : Mode.code mo = m) (k : Nat)
    (hk : k < 16) :
    constructData p a kc f (0x140 + (m - 1) * 0x10 + k) =
      (ModePreset.intoBytes (p mo)).getD k 0 ∧
    (∀ k2 : Nat, k2 < 16 → constructData p a kc f (0x270 + k2) =
      (ModePreset.intoBytes (p Mode.UserDefined)).getD k2 0) := by
  constructor
  · have h3 := constructData_preset p a kc f (m - 1) k (by omega) hk
    have h4 : loopMode (m - 1) = mo := by
      unfold loopMode
      rw [show m - 1 + 1 = m from by omega, ← hmo, Mode.fromCode_modecode]
      rfl
    rw [h4] at h3
    exact h3
  · intro k2 hk2
    exact constructData_ud p a kc f k2 hk2

theorem C4_preset_layout_witness :
    constructData (fun _ => absentPreset) absentPreset (fun _ => none)
        zeroFiller (0x140 + (1 - 1) * 0x10 + 0) =
      (ModePreset.intoBytes absentPreset).getD 0 0 ∧
    constructData (fun _ => absentPreset) absentPreset (fun _ => none)
        zeroFiller (0x270 + 0) =
      (ModePreset.intoBytes absentPreset).getD 0 0 :=
  ⟨(C4_preset_layout (fun _ => absentPreset) absentPreset (fun _ => none)
      zeroFiller 1 (by omega) (by omega) Mode.Static (by decide) 0
      (by omega)).1,
   (C4_preset_layout (fun _ => absentPreset) absentPreset (fun _ => none)
      zeroFiller 1 (by omega) (by omega) Mode.Static (by decide) 0
      (by omega)).2 0 (by omega)⟩

/-- Claim C2 counterexample: in the serialized buffer of
`set_backlight_off()`, the byte at logical offset 0x140 + (0x13-1)*0x10 =
0x260 - where the claim places byte 0 (the mode code 0x13) of Shuttle's
preset record - is 0, although the aggregate's `mode_presets` does carry a
Shuttle preset whose 16-byte record starts with 0x13: the serializer's loop
`for m in 0x01..0x13` excludes code 0x13. -/
theorem C2_counterexample :
    (lumData lumOff zeroFiller).map (fun d => d (0x140 + (0x13 - 1) * 0x10)) =
      some 0 ∧
    (lumOff.mode_presets Mode.Shuttle).map
        (fun pr => (ModePreset.intoBytes pr).getD 0 0) = some 0x13 ∧
    Mode.code Mode.Shuttle = 0x13 ∧ (0 : Nat) ≠ 0x13 := by
  refine ⟨?_, by decide, rfl, by omega⟩
  unfold lumData
  rw [if_pos lumOff_loadable]
  simp only [Option.map_some', Option.some.injEq]
  exact constructData_presetGap _ _ _ _ 0x260 (by omega) (by omega)

/-- Claim C2 (amended): every mode with numeric code m in 1..=0x12 (Static
through Tilt) has its 16-byte preset record serialized at logical offset
0x140 + (m-1)*0x10; Shuttle (code 0x13) owns no serialized slot - its
would-be slot 0x260-0x26F is left all zero - while NoBacklight owns no
preset slot and UserDefined occupies the separate fixed slot
0x270-0x27F. -/
theorem C2_amended (p : Mode → ModePreset) (a : ModePreset)
    (kc : Key → Option RGB) (f : Nat → Nat) (m : Nat) (h1 : 1 ≤ m)
    (h2 : m ≤ 0x12) (mo : Mode) (hmo : Mode.code mo = m) (k : Nat)
    (hk : k < 16) :
    constructData p a kc f (0x140 + (m - 1) * 0x10 + k) =
      (ModePreset.intoBytes (p mo)).getD k 0 ∧
    (∀ j : Nat, 0x260 ≤ j → j < 0x270 → constructData p a kc f j = 0) ∧
    (∀ k2 : Nat, k2 < 16 → constructData p a kc f (0x270 + k2) =
      (ModePreset.intoBytes (p Mode.UserDefined)).getD k2 0) := by
  refine ⟨?_, ?_, ?_⟩
  · have h3 := constructData_preset p a kc f (m - 1) k (by omega) hk
    have h4 : loopMode (m - 1) = mo := by
      unfold loopMode
      rw [show m - 1 + 1 = m from by omega, ← hmo, Mode.fromCode_modecode]
      rfl
    rw [h4] at h3
    exact h3
  · intro j hj1 hj2
    exact constructData_presetGap p a kc f j hj1 hj2
  · intro k2 hk2
    exact constructData_ud p a kc f k2 hk2

theorem C2_amended_witness :
    constructData (fun _ => absentPreset) absentPreset (fun _ => none)
        zeroFiller (0x140 + (0x12 - 1) * 0x10 + 0) =
      (ModePreset.intoBytes absentPreset).getD 0 0 ∧
    constructData (fun _ => absentPreset) absentPreset (fun _ => none)
        zeroFiller 0x260 = 0 :=
  ⟨(C2_amended (fun _ => absentPreset) absentPreset (fun _ => none)
      zeroFiller 0x12 (by omega) (by omega) Mode.Tilt (by decide) 0
      (by omega)).1,
   (C2_amended (fun _ => absentPreset) absentPreset (fun _ => none)
      zeroFiller 0x12 (by omega) (by omega) Mode.Tilt (by decide) 0
      (by omega)).2.1 0x260 (by omega) (by omega)⟩

/-- Claim C1 counterexample: for the aggregate
`set_user_defined(16, {Q: (255,128,15)})` and n = 0x98 (Q's raw key-code,
with 0x98 ≤ 575), the claim as stated places the delimiter 0x80 at offset
0x340 + 4*0x98 = 0x5A0 and Q's red byte 255 at 0x5A1; the serialized buffer
holds 0 at both positions (Q's slot actually sits at 0x340 + 0x98 =
0x3D8). -/
theorem C1_counterexample :
    (lumData c6lum zeroFiller).map (fun d => d (0x340 + 4 * 0x98)) =
      some 0 ∧
    (lumData c6lum zeroFiller).map (fun d => d (0x340 + 4 * 0x98 + 1)) =
      some 0 ∧
    c6lum.key_colors Key.Q = some (rgb 255 128 15) ∧
    (0x98 : Nat) ≤ 575 ∧ (0 : Nat) ≠ 0x80 ∧ (0 : Nat) ≠ 255 := by
  refine ⟨?_, ?_, rfl, by omega, by omega, by omega⟩
  · unfold lumData
    rw [if_pos c6lum_loadable]
    simp only [Option.map_some', Option.some.injEq]
    exact constructData_postActive _ _ _ _ 0x5A0 (by omega) (by omega)
  · unfold lumData
    rw [if_pos c6lum_loadable]
    simp only [Option.map_some', Option.some.injEq]
    exact constructData_postActive _ _ _ _ 0x5A1 (by omega) (by omega)

/-- Claim C1 (amended): for every aggregate, the per-key region 0x340-0x57F
consists of 144 4-byte slots; for every s from 0 to 143 the slot at offset
0x340 + 4*s represents raw key-code 4*s: its byte 0 is the delimiter 0x80,
and its bytes 1-3 are the RGB of the Key whose numeric code equals 4*s
(taken from key_colors, defaulting to black), or all-zero color bytes if no
Key has numeric code 4*s. -/
theorem C1_amended (p : Mode → ModePreset) (a : ModePreset)
    (kc : Key → Option RGB) (f : Nat → Nat) (s : Nat) (hs : s < 144) :
    constructData p a kc f (0x340 + 4 * s) = 0x80 ∧
    (∀ k : Key, Key.code k = 4 * s →
      constructData p a kc f (0x340 + 4 * s + 1) =
          ((kc k).getD (rgb 0 0 0)).red ∧
      constructData p a kc f (0x340 + 4 * s + 2) =
          ((kc k).getD (rgb 0 0 0)).green ∧
      constructData p a kc f (0x340 + 4 * s + 3) =
          ((kc k).getD (rgb 0 0 0)).blue) ∧
    ((∀ k : Key, Key.code k ≠ 4 * s) →
      constructData p a kc f (0x340 + 4 * s + 1) = 0 ∧
      constructData p a kc f (0x340 + 4 * s + 2) = 0 ∧
      constructData p a kc f (0x340 + 4 * s + 3) = 0) := by
  refine ⟨?_, ?_, ?_⟩
  · have h := constructData_key p a kc f s 0 hs (by omega)
    simpa using h
  · intro k hk
    have hfc : Key.fromCode (4 * s) = some k := by
      rw [← hk]
      exact Key.fromCode_keycode k
    have h1 := constructData_key p a kc f s 1 hs (by omega)
    have h2 := constructData_key p a kc f s 2 hs (by omega)
    have h3 := constructData_key p a kc f s 3 hs (by omega)
    rw [hfc] at h1 h2 h3
    simp only [show (1 : Nat) ≠ 0 from by omega,
      show (2 : Nat) ≠ 0 from by omega, show (3 : Nat) ≠ 0 from by omega,
      if_neg] at h1 h2 h3
    exact ⟨h1, h2, h3⟩
  · intro hnone
    have hfc : Key.fromCode (4 * s) = none := by
      cases hq : Key.fromCode (4 * s) with
      | none => rfl
      | some k => exact absurd (Key.code_of_fromCode hq) (hnone k)
    have h1 := constructData_key p a kc f s 1 hs (by omega)
    have h2 := constructData_key p a kc f s 2 hs (by omega)
    have h3 := constructData_key p a kc f s 3 hs (by omega)
    rw [hfc] at h1 h2 h3
    simp only [show (1 : Nat) ≠ 0 from by omega,
      show (2 : Nat) ≠ 0 from by omega, show (3 : Nat) ≠ 0 from by omega,
      if_neg] at h1 h2 h3
    exact ⟨h1, h2, h3⟩

theorem C1_amended_witness :
    constructData (fun _ => absentPreset) absentPreset (fun _ => none)
        zeroFiller (0x340 + 4 * 0x13) = 0x80 ∧
    constructData (fun _ => absentPreset) absentPreset (fun _ => none)
        zeroFiller (0x340 + 4 * 0x13 + 1) = 0 :=
  ⟨(C1_amended (fun _ => absentPreset) absentPreset (fun _ => none)
      zeroFiller 0x13 (by omega)).1,
   ((C1_amended (fun _ => absentPreset) absentPreset (fun _ => none)
       zeroFiller 0x13 (by omega)).2.1 Key.Esc (by decide)).1⟩

/-- Claim C6: the aggregate built by `set_user_defined(16, {Q: (255,128,15)})`
serializes with delimiter 0x80 followed by RGB bytes 255, 128, 15 at the
4-byte slot at global offset 0x3D8 (0x340 plus Q's numeric code 0x98), and
with delimiter 0x80 followed by zero RGB bytes at every other 4-byte key
slot in the per-key region. -/
theorem C6_user_defined_q (f : Nat → Nat) (s : Nat) (hs : s < 144)
    (hsne : s ≠ 0x26) :
    ((lumData c6lum f).map (fun d => d 0x3D8) = some 0x80 ∧
     (lumData c6lum f).map (fun d => d 0x3D9) = some 255 ∧
     (lumData c6lum f).map (fun d => d 0x3DA) = some 128 ∧
     (lumData c6lum f).map (fun d => d 0x3DB) = some 15) ∧
    ((lumData c6lum f).map (fun d => d (0x340 + 4 * s)) = some 0x80 ∧
     (lumData c6lum f).map (fun d => d (0x340 + 4 * s + 1)) = some 0 ∧
     (lumData c6lum f).map (fun d => d (0x340 + 4 * s + 2)) = some 0 ∧
     (lumData c6lum f).map (fun d => d (0x340 + 4 * s + 3)) = some 0) ∧
    Key.code Key.Q = 0x98 ∧ 0x340 + 0x98 = 0x3D8 := by
  unfold lumData
  rw [if_pos c6lum_loadable]
  simp only [Option.map_some', Option.some.injEq]
  have hkc : c6lum.key_colors = kcQ := rfl
  refine ⟨⟨?_, ?_, ?_, ?_⟩, ⟨?_, ?_, ?_, ?_⟩, by trivial, by trivial⟩
  · exact (constructData_key _ _ _ f 0x26 0 (by omega) (by omega)).trans rfl
  · exact (constructData_key _ _ _ f 0x26 1 (by omega) (by omega)).trans rfl
  · exact (constructData_key _ _ _ f 0x26 2 (by omega) (by omega)).trans rfl
  · exact (constructData_key _ _ _ f 0x26 3 (by omega) (by omega)).trans rfl
  · exact (constructData_key _ _ _ f s 0 hs (by omega)).trans rfl
  · have h := constructData_key (totalPresets c6lum.mode_presets)
      c6lum.active_mode c6lum.key_colors f s 1 hs (by omega)
    rw [hkc] at h
    cases hq : Key.fromCode (4 * s) with
    | none =>
        rw [hq] at h
        simpa using h
    | some k =>
        have hk : k ≠ Key.Q := by
          intro hkq
          subst hkq
          have h9 := Key.code_of_fromCode hq
          rw [show Key.code Key.Q = 0x98 from rfl] at h9
          omega
        rw [hq] at h
        simp only [show (1 : Nat) ≠ 0 from by omega, if_neg] at h
        rw [show kcQ k = none from by simp [kcQ, hk]] at h
        exact h
  · have h := constructData_key (totalPresets c6lum.mode_presets)
      c6lum.active_mode c6lum.key_colors f s 2 hs (by omega)
    rw [hkc] at h
    cases hq : Key.fromCode (4 * s) with
    | none =>
        rw [hq] at h
        simpa using h
    | some k =>
        have hk : k ≠ Key.Q := by
          intro hkq
          subst hkq
          have h9 := Key.code_of_fromCode hq
          rw [show Key.code Key.Q = 0x98 from rfl] at h9
          omega
        rw [hq] at h
        simp only [show (2 : Nat) ≠ 0 from by omega, if_neg] at h
        rw [show kcQ k = none from by simp [kcQ, hk]] at h
        exact h
  · have h := constructData_key (totalPresets c6lum.mode_presets)
      c6lum.active_mode c6lum.key_colors f s 3 hs (by omega)
    rw [hkc] at h
    cases hq : Key.fromCode (4 * s) with
    | none =>
        rw [hq] at h
        simpa using h
    | some k =>
        have hk : k ≠ Key.Q := by
          intro hkq
          subst hkq
          have h9 := Key.code_of_fromCode hq
          rw [show Key.code Key.Q = 0x98 from rfl] at h9
          omega
        rw [hq] at h
        simp only [show (3 : Nat) ≠ 0 from by omega, if_neg] at h
        rw [show kcQ k = none from by simp [kcQ, hk]] at h
        exact h

theorem C6_user_defined_q_witness :
    (lumData c6lum zeroFiller).map (fun d => d 0x3D9) = some 255 ∧
    (lumData c6lum zeroFiller).map (fun d => d (0x340 + 4 * 0 + 1)) =
      some 0 :=
  ⟨(C6_user_defined_q zeroFiller 0 (by omega) (by omega)).1.2.1,
   (C6_user_defined_q zeroFiller 0 (by omega) (by omega)).2.1.2.1⟩

/-- Claim C9: two invocations of the block builder on the same aggregate
yield identical 26-block output at every byte position except possibly the
payload of the block at index 2 (logical offsets 0x80-0xBF); every byte
outside that region, including every block's leading report-identifier
byte, is determined solely by the aggregate. -/
theorem C9_filler_determinism (lum : LightingUpdateMessage)
    (f1 f2 : Nat → Nat) (bl j : Nat) (hb : bl < 26) (hj : j < 65)
    (h : ¬(bl = 2 ∧ 1 ≤ j)) :
    (construct_feature_report_data_blocks lum f1).map (fun g => g bl j) =
      (construct_feature_report_data_blocks lum f2).map (fun g => g bl j) := by
  unfold construct_feature_report_data_blocks lumData
  by_cases hl : presetsLoadable lum = true
  · rw [if_pos hl, if_pos hl]
    simp only [Option.map_some', Option.some.injEq]
    unfold chunkBlocks
    by_cases hj0 : j = 0
    · rw [if_pos hj0, if_pos hj0]
    · rw [if_neg hj0, if_neg hj0]
      exact constructData_filler_indep _ _ _ f1 f2 _ (by omega)
  · rw [if_neg hl, if_neg hl]

theorem C9_filler_determinism_witness :
    (construct_feature_report_data_blocks lumOff zeroFiller).map
        (fun g => g 0 1) =
      (construct_feature_report_data_blocks lumOff (fun n => n + 7)).map
        (fun g => g 0 1) :=
  C9_filler_determinism lumOff zeroFiller (fun n => n + 7) 0 1 (by omega)
    (by omega) (by omega)

/-- Claim C3 counterexample: `set_user_defined(16, {})` yields an aggregate
whose active mode carries the real mode UserDefined, yet whose
`mode_presets[UserDefined]` entry is not the active preset (the slot keeps
the default preset, which differs in `full_color` and `speed`): the
constructor never overwrites the slot with the active preset. -/
theorem C3_counterexample :
    LightingUpdateMessage.set_user_defined 16 (fun _ => none) = some lumU16 ∧
    lumU16.active_mode.mode = Mode.UserDefined ∧
    lumU16.mode_presets Mode.UserDefined ≠ some lumU16.active_mode := by
  refine ⟨rfl, rfl, ?_⟩
  decide

/-- Claim C3 (amended): every aggregate produced by the three constructors
has a `mode_presets` map with exactly one entry per real mode (20 entries)
and no entry for NoBacklight; for `set_active_mode`, whenever
`active_mode.mode` is a real mode, `mode_presets[active_mode.mode]` equals
`active_mode`; for `set_backlight_off` the consistency condition holds
vacuously (the active mode is NoBacklight); `set_user_defined` leaves
`mode_presets[UserDefined]` at its default preset, which need not equal its
active preset. -/
theorem C3_amended :
    (∀ p : ModePreset,
      (LightingUpdateMessage.set_active_mode p).mode_presets
          Mode.NoBacklight = none ∧
      (∀ m : Mode, m ≠ Mode.NoBacklight →
        ((LightingUpdateMessage.set_active_mode p).mode_presets m).isSome =
          true) ∧
      (p.mode ≠ Mode.NoBacklight →
        (LightingUpdateMessage.set_active_mode p).mode_presets p.mode =
          some p)) ∧
    (lumOff.mode_presets Mode.NoBacklight = none ∧
      (∀ m : Mode, m ≠ Mode.NoBacklight →
        (lumOff.mode_presets m).isSome = true) ∧
      lumOff.active_mode.mode = Mode.NoBacklight) ∧
    (∀ (b : Nat) (hmap : Key → Option RGB) (l : LightingUpdateMessage),
      LightingUpdateMessage.set_user_defined b hmap = some l →
      (l.mode_presets Mode.NoBacklight = none ∧
       (∀ m : Mode, m ≠ Mode.NoBacklight →
         (l.mode_presets m).isSome = true) ∧
       l.active_mode.mode = Mode.UserDefined ∧
       l.mode_presets Mode.UserDefined =
         some (ModePreset.default_for Mode.UserDefined))) := by
  refine ⟨?_, ⟨?_, ?_, rfl⟩, ?_⟩
  · intro p
    refine ⟨?_, ?_, ?_⟩
    · rw [set_active_mode_presets,
        if_neg (fun hc => hc.2 hc.1.symm),
        default_hashmap_eq, if_pos rfl]
    · intro m hm
      rw [set_active_mode_presets]
      by_cases h2 : m = p.mode ∧ p.mode ≠ Mode.NoBacklight
      · rw [if_pos h2]
        rfl
      · rw [if_neg h2, default_hashmap_eq, if_neg hm]
        rfl
    · intro hp
      rw [set_active_mode_presets, if_pos ⟨rfl, hp⟩]
  · rw [lumOff_presets, default_hashmap_eq, if_pos rfl]
  · intro m hm
    rw [lumOff_presets, default_hashmap_eq, if_neg hm]
    rfl
  · intro b hmap l hl
    obtain ⟨hmp, hkc, hact⟩ := set_user_defined_some b hmap l hl
    refine ⟨?_, ?_, ?_, ?_⟩
    · rw [hmp, default_hashmap_eq, if_pos rfl]
    · intro m hm
      rw [hmp, default_hashmap_eq, if_neg hm]
      rfl
    · rw [hact]
    · rw [hmp, default_hashmap_eq, if_neg (by decide)]

theorem C3_amended_witness :
    (LightingUpdateMessage.set_active_mode
        (ModePreset.default_for Mode.Static)).mode_presets
        Mode.NoBacklight = none ∧
    ((LightingUpdateMessage.set_active_mode
        (ModePreset.default_for Mode.Static)).mode_presets
        Mode.Rolling).isSome = true ∧
    (LightingUpdateMessage.set_active_mode
        (ModePreset.default_for Mode.Static)).mode_presets
        (ModePreset.default_for Mode.Static).mode =
      some (ModePreset.default_for Mode.Static) ∧
    lumU16.mode_presets Mode.UserDefined =
      some (ModePreset.default_for Mode.UserDefined) :=
  ⟨(C3_amended.1 (ModePreset.default_for Mode.Static)).1,
   (C3_amended.1 (ModePreset.default_for Mode.Static)).2.1 Mode.Rolling
     (by decide),
   (C3_amended.1 (ModePreset.default_for Mode.Static)).2.2 (by decide),
   (C3_amended.2.2 16 (fun _ => none) lumU16 set_user_defined_16_empty).2.2.2⟩

end RK61
